import Mathlib

set_option maxRecDepth 100000

/-!
Shallow embedding of the NimSchools assistant core (`app.py`): the rule-based
intent matcher `answer_question` and the PIN-gated record lookup behind the
`/results` route, together with proofs of the behavioural properties claimed
for them.

Strings are modelled as Lean `String`s; Python's `str.lower` is modelled for
the ASCII range by `Char.toLower`, `str.strip` by trimming ASCII whitespace,
and the Python substring test `needle in haystack` by an explicit list
search. Dictionaries become association lists looked up in insertion order.
-/

/-- Python `needle in haystack` at a fixed offset: the needle's characters
match the front of the remaining text. -/
def charsMatch : List Char → List Char → Bool
  | [], _ => true
  | _ :: _, [] => false
  | a :: as, b :: bs => a == b && charsMatch as bs

/-- Substring search over character lists, trying every offset. -/
def subSearch (nd : List Char) : List Char → Bool
  | [] => charsMatch nd []
  | c :: cs => charsMatch nd (c :: cs) || subSearch nd cs

/-- Python's `nd in q` on strings. -/
def strContains (q nd : String) : Bool := subSearch nd.data q.data

/-- Python's `str.lower`, restricted to the ASCII range the program uses. -/
def lowerStr (s : String) : String := String.mk (s.data.map Char.toLower)

/-- Whitespace characters removed by Python's `str.strip`. -/
def isPySpace (c : Char) : Bool :=
  c == ' ' || c == '\t' || c == '\n' || c == '\r' || c == '\x0b' || c == '\x0c'

/-- Drop leading whitespace from a character list. -/
def dropWs : List Char → List Char
  | [] => []
  | c :: cs => if isPySpace c then dropWs cs else c :: cs

/-- Python's `str.strip`: drop whitespace at both ends. -/
def strip (s : String) : String :=
  String.mk (((dropWs s.data).reverse |> dropWs).reverse)

/-! ### The canned answers of `answer_question` (verbatim from `app.py`) -/

def addressAnswer : String :=
  "New Ideal Model Schools (NIMS) is located at No. 12 Old Pantisawa Road, Jalingo, Taraba State, Nigeria."

def contactAnswer : String :=
  "You can contact New Ideal Model Schools at +234 803 426 1645 or by email at info@nimschools.org. The school is at No. 12 Old Pantisawa Road, Jalingo, Taraba State."

def aboutAnswer : String :=
  "New Ideal Model Schools (NIMS) in Jalingo, Taraba State, focuses on developing lifelong learning through quality education. The school provides a vibrant learning environment with modern classrooms, state-of-the-art facilities, and engaged students, and encourages holistic development through academics and extracurricular activities."

def admissionsAnswer : String :=
  "Admissions for the 2025 academic year are open. The website links to an admissions page where you can apply. If you need help with the process, you can also call +234 803 426 1645 or email info@nimschools.org for guidance on requirements, fees, and timelines."

def eyfsAnswer : String :=
  "Early Years Foundation Stage (EYFS) at NIMS includes classes like Playgroup Lily, Pre-Nursery Jasmine, Pre-Nursery Tulip, Nursery Daisy, Nursery Ivy, and Reception classes such as Sage and Rose."

def ks1Answer : String :=
  "Key Stage 1 at NIMS includes Year 1 Cheetah, Year 2 Dolphin, Year 2 Orca, and Year 3 Bear classes."

def ks2Answer : String :=
  "Key Stage 2 at NIMS includes Year 4 Blue Jays, Year 5 Barn Owls, and Year 6 Zebra."

def ks3Answer : String :=
  "Key Stage 3 at NIMS includes Year 7 Amber, Year 8 Ruby, and Year 9 Beryl."

def ks4Answer : String :=
  "Key Stage 4 at NIMS includes Year 10 Jasper, Year 11 Onyx, and Year 12 Topaz."

def classesAnswer : String :=
  "NIMS runs from Early Years Foundation Stage (EYFS) through Key Stages 1–4. EYFS covers playgroup and nursery up to reception; Key Stage 1 covers Years 1–3; Key Stage 2 covers Years 4–6; Key Stage 3 covers Years 7–9; and Key Stage 4 covers Years 10–12."

def extracurricularAnswer : String :=
  "NIMS encourages holistic development through extracurricular activities, including an art gallery, architectural design projects, and other clubs and activities that support students' creativity and talents."

def principalAnswer : String :=
  "The Principal and Head of Schools at NIMS is Mr. Adebanjo Oluwafemi. He has extensive experience in education and school leadership across international schools in Nigeria."

def vpAcademicAnswer : String :=
  "The Vice Principal Academic at NIMS is Mrs. Ifeoma Victoria Onwuka. She supports curriculum development and teacher effectiveness to ensure strong academic outcomes."

def vpSpecialAnswer : String :=
  "The Vice Principal Special Duties at NIMS is Mr. David Kennedy. He helps oversee daily operations and resources to maintain a safe and organized learning environment."

def artTeacherAnswer : String :=
  "The Art Teacher at NIMS is Mr. Baajon Cyracus Michael. He develops and delivers engaging art lessons, helping students explore drawing, painting, sculpture, and art appreciation."

def ictAnswer : String :=
  "Samuel Oguche serves as ICT staff and E-Librarian at NIMS, supporting students' access to digital learning resources."

def alumniAnswer : String :=
  "Alumni of NIMS describe it as the best school and say it has positively impacted them and their generation. They highlight how studying at NIMS helped them understand what education is really about and made them more brilliant and competitive."

def feesAnswer : String :=
  "Details like fees, transport, and boarding are not clearly listed in the public content I can see. Please contact the school directly at +234 803 426 1645 or info@nimschools.org for the latest information."

def fallbackAnswer : String :=
  "I'm a NimSchools helper bot with information taken from the public website. I couldn't find an exact answer to that question. You can:\n- Ask about academics (EYFS, Key Stages 1–4, extracurricular activities).\n- Ask about the principal, vice principals, or staff.\n- Ask for contact details or the school location.\n\nFor anything else (like fees or detailed admission requirements), it's best to call +234 803 426 1645 or email info@nimschools.org."

/-! ### The keyword groups of `answer_question`, in source order -/

def g_address (q : String) : Bool :=
  strContains q "address" || strContains q "location" || strContains q "where are you" || strContains q "where is the school"

def g_contact (q : String) : Bool :=
  strContains q "contact" || strContains q "phone" || strContains q "call" || strContains q "email"

def g_about (q : String) : Bool :=
  strContains q "about" || strContains q "tell me about" || strContains q "what is nim" || strContains q "what is nims" || strContains q "new ideal model schools"

def g_admissions (q : String) : Bool :=
  strContains q "admission" || strContains q "enrol" || strContains q "enroll" || strContains q "apply"

def g_eyfs (q : String) : Bool :=
  strContains q "early years" || strContains q "eyfs"

def g_ks1 (q : String) : Bool :=
  strContains q "key stage 1" || strContains q "ks1" || strContains q "key stage one"

def g_ks2 (q : String) : Bool :=
  strContains q "key stage 2" || strContains q "ks2" || strContains q "key stage two"

def g_ks3 (q : String) : Bool :=
  strContains q "key stage 3" || strContains q "ks3" || strContains q "key stage three"

def g_ks4 (q : String) : Bool :=
  strContains q "key stage 4" || strContains q "ks4" || strContains q "key stage four"

def g_classes (q : String) : Bool :=
  strContains q "class" || strContains q "classes" || strContains q "grades" || strContains q "sections"

def g_extracurricular (q : String) : Bool :=
  strContains q "extracurricular" || strContains q "extra-curricular" || strContains q "activities" || strContains q "club" || strContains q "sport"

def g_principal (q : String) : Bool :=
  strContains q "principal" || strContains q "head of school" || strContains q "head of schools"

def g_vpAcademic (q : String) : Bool :=
  strContains q "vice principal academic" || strContains q "vp academic" || strContains q "ifeoma"

def g_vpSpecial (q : String) : Bool :=
  strContains q "vice principal" || strContains q "special duties" || strContains q "david kennedy"

def g_artTeacher (q : String) : Bool :=
  strContains q "art teacher" || strContains q "baajon" || strContains q "cyracus"

def g_ict (q : String) : Bool :=
  strContains q "e-librarian" || strContains q "ict staff" || strContains q "samuel oguche"

def g_alumni (q : String) : Bool :=
  strContains q "alumni" || strContains q "testimonials" || strContains q "what do students say"

def g_fees (q : String) : Bool :=
  strContains q "fees" || strContains q "school fees" || strContains q "tuition" || strContains q "scholarship" || strContains q "bus" || strContains q "transport" || strContains q "boarding" || strContains q "hostel"

/-- The ordered if/elif cascade of `answer_question`, applied to the
already-lowercased question. -/
def answerFor (q : String) : String :=
  if g_address q then addressAnswer
  else if g_contact q then contactAnswer
  else if g_about q then aboutAnswer
  else if g_admissions q then admissionsAnswer
  else if g_eyfs q then eyfsAnswer
  else if g_ks1 q then ks1Answer
  else if g_ks2 q then ks2Answer
  else if g_ks3 q then ks3Answer
  else if g_ks4 q then ks4Answer
  else if g_classes q then classesAnswer
  else if g_extracurricular q then extracurricularAnswer
  else if g_principal q then principalAnswer
  else if g_vpAcademic q then vpAcademicAnswer
  else if g_vpSpecial q then vpSpecialAnswer
  else if g_artTeacher q then artTeacherAnswer
  else if g_ict q then ictAnswer
  else if g_alumni q then alumniAnswer
  else if g_fees q then feesAnswer
  else fallbackAnswer

/-- `answer_question` from `app.py`: lowercase the question, then run the
first-match-wins keyword cascade. -/
def answer_question (question : String) : String :=
  answerFor (lowerStr question)

/-- The cascade's groups as an ordered (predicate, answer) rule list, in the
exact source order of the if/elif chain. -/
def RULES : List ((String → Bool) × String) :=
  [(g_address, addressAnswer), (g_contact, contactAnswer), (g_about, aboutAnswer),
   (g_admissions, admissionsAnswer), (g_eyfs, eyfsAnswer), (g_ks1, ks1Answer),
   (g_ks2, ks2Answer), (g_ks3, ks3Answer), (g_ks4, ks4Answer), (g_classes, classesAnswer),
   (g_extracurricular, extracurricularAnswer), (g_principal, principalAnswer),
   (g_vpAcademic, vpAcademicAnswer), (g_vpSpecial, vpSpecialAnswer),
   (g_artTeacher, artTeacherAnswer), (g_ict, ictAnswer), (g_alumni, alumniAnswer),
   (g_fees, feesAnswer)]

/-- First-match-wins evaluation of a rule list, falling back to the fixed
fallback text: the shape of the source's if/elif cascade. -/
def firstMatch : List ((String → Bool) × String) → String → String
  | [], _ => fallbackAnswer
  | (p, a) :: rest, q => if p q then a else firstMatch rest q

/-- True when some keyword group of the cascade matches the (lowercased)
question; the fallback is returned exactly when this is false. -/
def anyGroup (q : String) : Bool :=
  RULES.any fun r => r.1 q

/-- The rules the cascade tries strictly before the vice-principal-academic
group, in source order. -/
def rulesBeforeVpa : List ((String → Bool) × String) :=
  [(g_address, addressAnswer), (g_contact, contactAnswer), (g_about, aboutAnswer),
   (g_admissions, admissionsAnswer), (g_eyfs, eyfsAnswer), (g_ks1, ks1Answer),
   (g_ks2, ks2Answer), (g_ks3, ks3Answer), (g_ks4, ks4Answer), (g_classes, classesAnswer),
   (g_extracurricular, extracurricularAnswer), (g_principal, principalAnswer)]

/-- The rules from the vice-principal-academic group on, in source order. -/
def rulesFromVpa : List ((String → Bool) × String) :=
  [(g_vpAcademic, vpAcademicAnswer), (g_vpSpecial, vpSpecialAnswer),
   (g_artTeacher, artTeacherAnswer), (g_ict, ictAnswer), (g_alumni, alumniAnswer),
   (g_fees, feesAnswer)]

/-! ### The `/results` lookup (`results_lookup` route in `app.py`) -/

/-- One row of a student's subject map: `{"score": ..., "grade": ...}`. -/
structure SubjectRow where
  score : Nat
  grade : String
deriving DecidableEq

/-- A value of `RESULTS_BY_PIN`: one student's record. The subject map is an
association list in the dictionary's insertion order. -/
structure StudentRecord where
  student_name : String
  class_ : String
  session : String
  term : String
  subjects : List (String × SubjectRow)
deriving DecidableEq

/-- Python `dict.get` over an association list (first binding wins). -/
def lookupAssoc {α : Type} : List (String × α) → String → Option α
  | [], _ => none
  | (k, v) :: t, key => if key = k then some v else lookupAssoc t key

/-- The record stored under PIN `"1234"`. -/
def aishaRecord : StudentRecord :=
  { student_name := "Aisha Ibrahim"
    class_ := "Year 6 Zebra"
    session := "2024/2025"
    term := "Second Term"
    subjects := [("mathematics", ⟨88, "A"⟩), ("english", ⟨82, "A-"⟩),
                 ("science", ⟨79, "B+"⟩), ("social studies", ⟨85, "A"⟩)] }

/-- The record stored under PIN `"5678"`. -/
def davidRecord : StudentRecord :=
  { student_name := "David Okafor"
    class_ := "Year 9 Beryl"
    session := "2024/2025"
    term := "Second Term"
    subjects := [("mathematics", ⟨72, "B"⟩), ("english", ⟨90, "A+"⟩),
                 ("physics", ⟨76, "B+"⟩), ("chemistry", ⟨69, "C+"⟩)] }

/-- `RESULTS_BY_PIN` from `app.py`. -/
def RESULTS_BY_PIN : List (String × StudentRecord) :=
  [("1234", aishaRecord), ("5678", davidRecord)]

/-- The subject alias table from the `/results` handler. -/
def alias_map : List (String × String) :=
  [("math", "mathematics"), ("maths", "mathematics"), ("english language", "english")]

/-- The process-wide read-only tables the `/results` handler consults. -/
structure AppState where
  results : List (String × StudentRecord)
  aliases : List (String × String)
deriving DecidableEq

/-- The tables as built at process start. -/
def initState : AppState := { results := RESULTS_BY_PIN, aliases := alias_map }

/-- `subject_key = alias_map.get(subject_raw, subject_raw)`, over given tables. -/
def aliasResolveT (al : List (String × String)) (s : String) : String :=
  match lookupAssoc al s with
  | some k => k
  | none => s

/-- Alias resolution against the program's alias table. -/
def aliasResolve (s : String) : String := aliasResolveT alias_map s

/-- The outcomes of the `/results` handler, message text included. -/
inductive LookupResult where
  | missingPin (msg : String)
  | invalidPin (msg : String)
  | allSubjects (student_name class_ session term : String)
      (subjects : List (String × SubjectRow))
  | subjectNotFound (msg : String)
  | singleSubject (student_name class_ session term subject : String)
      (score : Nat) (grade : String)
deriving DecidableEq

/-- The `/results` handler body over explicit tables: trim the PIN, trim and
lowercase the subject, reject an empty PIN, look the PIN up, then either
return the whole record, or resolve the subject through the alias table and
return one row or a not-found error. -/
def results_lookupT (st : AppState) (pinRaw subjRaw : String) : LookupResult :=
  if strip pinRaw = "" then
    LookupResult.missingPin "Missing 'pin' in request body."
  else
    match lookupAssoc st.results (strip pinRaw) with
    | none => LookupResult.invalidPin "Invalid PIN. Please check and try again."
    | some record =>
      if lowerStr (strip subjRaw) = "" then
        LookupResult.allSubjects record.student_name record.class_
          record.session record.term record.subjects
      else
        match lookupAssoc record.subjects
            (aliasResolveT st.aliases (lowerStr (strip subjRaw))) with
        | none =>
          LookupResult.subjectNotFound
            ("No recorded result for subject '" ++ lowerStr (strip subjRaw) ++
              "' for this student.")
        | some row =>
          LookupResult.singleSubject record.student_name record.class_
            record.session record.term
            (aliasResolveT st.aliases (lowerStr (strip subjRaw))) row.score row.grade

/-- `results_lookup` as deployed: the handler over the process-start tables. -/
def results_lookup (pinRaw subjRaw : String) : LookupResult :=
  results_lookupT initState pinRaw subjRaw

/-! ### A request/response step semantics for the two routes -/

/-- A request to one of the two core routes. -/
inductive Request where
  | ask (question : String)
  | lookup (pin subject : String)
deriving DecidableEq

/-- The observable reply of a core route. -/
inductive Response where
  | answer (text : String)
  | result (r : LookupResult)
deriving DecidableEq

/-- One server step: dispatch a request against the current tables. Both
handlers only read the tables, so the state they leave behind is the state
they were given. -/
def serverStep (st : AppState) : Request → Response × AppState
  | Request.ask q => (Response.answer (answer_question q), st)
  | Request.lookup p s => (Response.result (results_lookupT st p s), st)

/-- Run a whole sequence of requests, threading the table state. -/
def runTrace (st : AppState) : List Request → List Response × AppState
  | [] => ([], st)
  | r :: rs =>
    ((serverStep st r).1 :: (runTrace (serverStep st r).2 rs).1,
      (runTrace (serverStep st r).2 rs).2)

/-! ### Theorems for the claims -/

/-- The if/elif cascade is exactly first-match evaluation of the ordered
rule list. -/
theorem answerFor_eq_firstMatch (q : String) : answerFor q = firstMatch RULES q := rfl

/-- A needle matches at the front of a text exactly when the text extends it. -/
theorem charsMatch_iff (nd : List Char) : ∀ x : List Char,
    (charsMatch nd x = true ↔ ∃ t, x = nd ++ t) := by
  induction nd with
  | nil => intro x; simp [charsMatch]
  | cons c cs ih =>
    intro x
    cases x with
    | nil => simp [charsMatch]
    | cons b bs =>
      simp only [charsMatch, Bool.and_eq_true, beq_iff_eq, ih, List.cons_append]
      constructor
      · rintro ⟨hc, t, ht⟩
        exact ⟨t, by simp [hc, ht]⟩
      · rintro ⟨t, ht⟩
        injection ht with h1 h2
        exact ⟨h1.symm, t, h2⟩

/-- Substring search succeeds exactly when the needle occurs somewhere in
the haystack. -/
theorem subSearch_iff (nd l : List Char) :
    subSearch nd l = true ↔ ∃ s t, l = s ++ nd ++ t := by
  induction l with
  | nil =>
    simp only [subSearch, charsMatch_iff]
    constructor
    · rintro ⟨t, ht⟩
      exact ⟨[], t, by simpa using ht⟩
    · rintro ⟨s, t, h⟩
      obtain ⟨h3, ht⟩ := List.append_eq_nil.mp h.symm
      obtain ⟨hs, hnd⟩ := List.append_eq_nil.mp h3
      exact ⟨[], by simp [hnd]⟩
  | cons c cs ih =>
    simp only [subSearch, Bool.or_eq_true, charsMatch_iff, ih]
    constructor
    · rintro (⟨t, ht⟩ | ⟨s, t, h⟩)
      · exact ⟨[], t, by simp [ht]⟩
      · exact ⟨c :: s, t, by simp [h]⟩
    · rintro ⟨s, t, h⟩
      cases s with
      | nil =>
        exact Or.inl ⟨t, by simpa using h⟩
      | cons d ds =>
        injection h with h1 h2
        exact Or.inr ⟨ds, t, h2⟩

/-- Occurrence is transitive: a needle occurring inside another needle
occurs in every haystack containing the larger one. -/
theorem subSearch_trans (nd1 nd2 l : List Char)
    (h12 : subSearch nd1 nd2 = true) (h2l : subSearch nd2 l = true) :
    subSearch nd1 l = true := by
  rw [subSearch_iff] at h12 h2l ⊢
  obtain ⟨s1, t1, h1⟩ := h12
  obtain ⟨s2, t2, h2⟩ := h2l
  exact ⟨s2 ++ s1, t1 ++ t2, by simp [h2, h1, List.append_assoc]⟩

/-- `strContains` is transitive through an intermediate phrase. -/
theorem strContains_trans (q a b : String)
    (hab : strContains a b = true) (hqa : strContains q a = true) :
    strContains q b = true :=
  subSearch_trans b.data a.data q.data hab hqa

/-- If some rule of a front segment fires, first-match evaluation of the
whole list answers from that front segment. -/
theorem firstMatch_append (rules1 rules2 : List ((String → Bool) × String)) (q : String)
    (h : (rules1.any fun r => r.1 q) = true) :
    firstMatch (rules1 ++ rules2) q ∈ rules1.map Prod.snd := by
  induction rules1 with
  | nil => simp at h
  | cons r rest ih =>
    obtain ⟨p, a⟩ := r
    simp only [List.any_cons] at h
    by_cases hp : p q = true
    · simp only [List.cons_append]
      unfold firstMatch
      rw [if_pos hp]
      simp
    · have hp' : p q = false := by
        cases hpq : p q
        · rfl
        · exact absurd hpq hp
      rw [hp', Bool.false_or] at h
      simp only [List.cons_append]
      unfold firstMatch
      rw [if_neg hp]
      simp only [List.map_cons, List.mem_cons]
      exact Or.inr (ih h)

/-- Claim C1 is violated by the code. First, the failing input: the
lowercased question "who is the vice principal academic" contains the phrase
"vice principal academic", yet `answer_question` returns the principal
answer (the one naming Mr. Adebanjo Oluwafemi), not the academic-VP answer.
Second, in general: every question containing that phrase also contains
"principal", so the earlier "principal" group always fires first and the
academic-VP answer is never returned for such a question. -/
theorem C1_vpa_shadowed_by_principal :
    (strContains (lowerStr "who is the vice principal academic") "vice principal academic" = true
      ∧ answer_question "who is the vice principal academic" = principalAnswer
      ∧ principalAnswer ≠ vpAcademicAnswer)
    ∧ ∀ q, strContains (lowerStr q) "vice principal academic" = true →
        answer_question q ≠ vpAcademicAnswer := by
  refine ⟨by decide, ?_⟩
  intro q h heq
  have hpr : strContains (lowerStr q) "principal" = true :=
    strContains_trans (lowerStr q) "vice principal academic" "principal" (by decide) h
  have hany : (rulesBeforeVpa.any fun r => r.1 (lowerStr q)) = true := by
    simp [rulesBeforeVpa, g_principal, hpr]
  have hmem : answerFor (lowerStr q) ∈ rulesBeforeVpa.map Prod.snd := by
    rw [answerFor_eq_firstMatch, show RULES = rulesBeforeVpa ++ rulesFromVpa from rfl]
    exact firstMatch_append rulesBeforeVpa rulesFromVpa (lowerStr q) hany
  have heq' : answerFor (lowerStr q) = vpAcademicAnswer := heq
  rw [heq'] at hmem
  exact absurd hmem (by decide)

/-- Claim C1 witness: the general clause applied at the failing input. -/
theorem C1_witness :
    answer_question "who is the vice principal academic" ≠ vpAcademicAnswer :=
  C1_vpa_shadowed_by_principal.2 "who is the vice principal academic" (by decide)

/-- Claim C2, counterexample: for PIN "5678" and subject "Biology" the
handler returns a `SubjectNotFound` message echoing the lowercased text
"biology", not the user's original text "Biology" — so the message does not
echo the original (non-normalized) subject text exactly. -/
theorem C2_counterexample :
    results_lookup "5678" "Biology" =
      LookupResult.subjectNotFound "No recorded result for subject 'biology' for this student."
    ∧ ("biology" : String) ≠ "Biology"
    ∧ LookupResult.subjectNotFound "No recorded result for subject 'biology' for this student." ≠
        LookupResult.subjectNotFound "No recorded result for subject 'Biology' for this student." := by decide

/-- Claim C2 as amended: when the PIN is found and the trimmed, lowercased
subject is non-empty but its alias-resolved key is absent from the student's
subject map, the handler returns `SubjectNotFound` whose message interpolates
the trimmed, lowercased subject text (the pre-alias form), never the
alias-resolved canonical key. -/
theorem C2_not_found_echoes_normalized (pinRaw subjRaw : String) (rec : StudentRecord)
    (hrec : lookupAssoc RESULTS_BY_PIN (strip pinRaw) = some rec)
    (hne : lowerStr (strip subjRaw) ≠ "")
    (hmiss : lookupAssoc rec.subjects (aliasResolve (lowerStr (strip subjRaw))) = none) :
    results_lookup pinRaw subjRaw =
      LookupResult.subjectNotFound
        ("No recorded result for subject '" ++ lowerStr (strip subjRaw) ++ "' for this student.") := by
  have hp : strip pinRaw ≠ "" := by
    intro h0
    have hnone : lookupAssoc RESULTS_BY_PIN ("" : String) = none := by decide
    rw [h0, hnone] at hrec
    exact Option.noConfusion hrec
  have hrec' : lookupAssoc initState.results (strip pinRaw) = some rec := hrec
  have hmiss' : lookupAssoc rec.subjects
      (aliasResolveT initState.aliases (lowerStr (strip subjRaw))) = none := hmiss
  unfold results_lookup results_lookupT
  rw [if_neg hp]
  split
  · rename_i hnone
    rw [hrec'] at hnone
    exact Option.noConfusion hnone
  · rename_i record hsome
    injection hrec'.symm.trans hsome with hrr
    subst hrr
    rw [if_neg hne]
    split
    · rfl
    · rename_i row hrow
      rw [hmiss'] at hrow
      exact Option.noConfusion hrow

/-- Claim C2 witness: the amended theorem applied at PIN "5678" and the
subject text " Biology ". -/
theorem C2_witness :
    results_lookup "5678" " Biology " =
      LookupResult.subjectNotFound
        ("No recorded result for subject '" ++ lowerStr (strip " Biology ") ++ "' for this student.") :=
  C2_not_found_echoes_normalized "5678" " Biology " davidRecord (by decide) (by decide) (by decide)

/-- Claim C3, counterexample: the empty PIN does not get the `InvalidPin`
outcome — the handler's own empty-PIN check fires first and returns the
distinct missing-pin error. -/
theorem C3_counterexample :
    results_lookup "" "" = LookupResult.missingPin "Missing 'pin' in request body."
    ∧ LookupResult.missingPin "Missing 'pin' in request body." ≠
        LookupResult.invalidPin "Invalid PIN. Please check and try again." := by decide

/-- Claim C3 as amended: every PIN that is non-empty after trimming and
absent from the record table yields the identical `InvalidPin` outcome —
same variant, same fixed message — whatever the absent PIN or the subject
was; the empty PIN instead yields the missing-pin error. -/
theorem C3_absent_pin_uniform (pinRaw subjRaw : String)
    (hp : strip pinRaw ≠ "")
    (habs : lookupAssoc RESULTS_BY_PIN (strip pinRaw) = none) :
    results_lookup pinRaw subjRaw =
      LookupResult.invalidPin "Invalid PIN. Please check and try again." := by
  have habs' : lookupAssoc initState.results (strip pinRaw) = none := habs
  unfold results_lookup results_lookupT
  rw [if_neg hp]
  split
  · rfl
  · rename_i record hsome
    rw [habs'] at hsome
    exact Option.noConfusion hsome

/-- Claim C3 witness: the amended theorem applied at the absent PIN "9999". -/
theorem C3_witness :
    results_lookup "9999" "math" =
      LookupResult.invalidPin "Invalid PIN. Please check and try again." :=
  C3_absent_pin_uniform "9999" "math" (by decide) (by decide)

/-- When every rule's answer and the fallback are non-empty, first-match
evaluation never returns the empty string. -/
theorem firstMatch_ne_empty (rules : List ((String → Bool) × String)) (q : String)
    (h : ∀ a ∈ rules.map Prod.snd, a ≠ "") (hf : fallbackAnswer ≠ "") :
    firstMatch rules q ≠ "" := by
  induction rules with
  | nil => exact hf
  | cons r rest ih =>
    obtain ⟨p, a⟩ := r
    unfold firstMatch
    by_cases hp : p q = true
    · rw [if_pos hp]
      exact h a (by simp)
    · rw [if_neg hp]
      exact ih fun b hb => h b (by simp [hb])

/-- When no rule's predicate fires, first-match evaluation returns the
fallback text. -/
theorem firstMatch_fallback (rules : List ((String → Bool) × String)) (q : String)
    (h : (rules.any fun r => r.1 q) = false) :
    firstMatch rules q = fallbackAnswer := by
  induction rules with
  | nil => rfl
  | cons r rest ih =>
    obtain ⟨p, a⟩ := r
    simp only [List.any_cons] at h
    by_cases hp : p q = true
    · rw [hp] at h
      simp at h
    · have hp' : p q = false := by
        cases hpq : p q
        · rfl
        · exact absurd hpq hp
      rw [hp', Bool.false_or] at h
      unfold firstMatch
      rw [if_neg hp]
      exact ih h

/-- Claim C4: `answer_question` is total and never returns the empty string,
and whenever no keyword group matches the lowercased question it returns
exactly the fixed fallback text. -/
theorem C4_total_nonempty_fallback (q : String) :
    answer_question q ≠ ""
    ∧ (anyGroup (lowerStr q) = false → answer_question q = fallbackAnswer) := by
  constructor
  · show answerFor (lowerStr q) ≠ ""
    rw [answerFor_eq_firstMatch]
    exact firstMatch_ne_empty RULES (lowerStr q) (by decide) (by decide)
  · intro h
    show answerFor (lowerStr q) = fallbackAnswer
    rw [answerFor_eq_firstMatch]
    exact firstMatch_fallback RULES (lowerStr q) h

/-- Claim C4 witness: the empty question matches no group and receives the
fallback answer, which is non-empty. -/
theorem C4_witness :
    anyGroup (lowerStr "") = false
    ∧ answer_question "" = fallbackAnswer
    ∧ answer_question "" ≠ "" :=
  ⟨by decide, (C4_total_nonempty_fallback "").2 (by decide), (C4_total_nonempty_fallback "").1⟩

/-- Neither handler writes to the tables: a server step returns the state it
was given. -/
theorem serverStep_preserves_state (st : AppState) (r : Request) :
    (serverStep st r).2 = st := by
  cases r <;> rfl

/-- Claim C5: both components are pure and deterministic. Dispatching any
sequence of requests against the read-only tables leaves the tables exactly
as they were, and every response is a function of the request and the
initial tables alone — so repeated identical calls, with any other calls
interleaved, always produce identical observable results. -/
theorem C5_pure_no_mutation (st : AppState) (rs : List Request) :
    runTrace st rs = (rs.map fun r => (serverStep st r).1, st) := by
  induction rs with
  | nil => rfl
  | cons r rs ih => simp [runTrace, serverStep_preserves_state, ih]

/-- Claim C6: every question whose lowercased form contains "address" or
"location" receives exactly the fixed address answer. -/
theorem C6_address_fixed (q : String)
    (h : strContains (lowerStr q) "address" = true ∨ strContains (lowerStr q) "location" = true) :
    answer_question q = addressAnswer := by
  have hg : g_address (lowerStr q) = true := by
    rcases h with h | h <;> simp [g_address, h]
  unfold answer_question answerFor
  rw [if_pos hg]

/-- Claim C6 witness: the theorem applied at a concrete question containing
"address". -/
theorem C6_witness : answer_question "What is your Address?" = addressAnswer :=
  C6_address_fixed "What is your Address?" (Or.inl (by decide))

/-- Claim C7: PIN "1234" with an empty subject returns the `AllSubjects`
result for Aisha Ibrahim with her class, session and term, and exactly the
four subjects mathematics=88, english=82, science=79, social studies=85. -/
theorem C7_all_subjects_aisha :
    results_lookup "1234" "" =
      LookupResult.allSubjects "Aisha Ibrahim" "Year 6 Zebra" "2024/2025" "Second Term"
        [("mathematics", ⟨88, "A"⟩), ("english", ⟨82, "A-"⟩),
         ("science", ⟨79, "B+"⟩), ("social studies", ⟨85, "A"⟩)]
    ∧ aishaRecord.subjects.length = 4 := by decide

/-- Claim C8: PIN "1234" with subject "math" resolves the alias to the
canonical key "mathematics" and returns the single-subject result with
score 88 and grade "A"; alias resolution is the identity on any subject
absent from the alias table. -/
theorem C8_math_alias_single :
    results_lookup "1234" "math" =
      LookupResult.singleSubject "Aisha Ibrahim" "Year 6 Zebra" "2024/2025" "Second Term"
        "mathematics" 88 "A"
    ∧ aliasResolve "math" = "mathematics"
    ∧ ∀ s, lookupAssoc alias_map s = none → aliasResolve s = s := by
  refine ⟨by decide, by decide, ?_⟩
  intro s h
  unfold aliasResolve aliasResolveT
  rw [h]

/-- Claim C8 witness: the theorem's identity clause applied at the
alias-table-absent subject "biology". -/
theorem C8_witness :
    lookupAssoc alias_map "biology" = none ∧ aliasResolve "biology" = "biology" :=
  ⟨by decide, C8_math_alias_single.2.2 "biology" (by decide)⟩

/-- Claim C9 as amended: no lookup outcome's message is built from the PIN.
Every result is either one of the two fixed error constants, the
`SubjectNotFound` message interpolating only the normalized subject text, or
a success variant assembled from a stored record — so the PIN can appear in
an error payload only when the subject text itself contains it. -/
theorem C9_error_messages_pin_free (pinRaw subjRaw : String) :
    results_lookup pinRaw subjRaw = LookupResult.missingPin "Missing 'pin' in request body."
    ∨ results_lookup pinRaw subjRaw =
        LookupResult.invalidPin "Invalid PIN. Please check and try again."
    ∨ results_lookup pinRaw subjRaw =
        LookupResult.subjectNotFound
          ("No recorded result for subject '" ++ lowerStr (strip subjRaw) ++ "' for this student.")
    ∨ (∃ rec : StudentRecord,
        results_lookup pinRaw subjRaw =
          LookupResult.allSubjects rec.student_name rec.class_ rec.session rec.term rec.subjects)
    ∨ (∃ rec : StudentRecord, ∃ row : SubjectRow,
        results_lookup pinRaw subjRaw =
          LookupResult.singleSubject rec.student_name rec.class_ rec.session rec.term
            (aliasResolve (lowerStr (strip subjRaw))) row.score row.grade) := by
  unfold results_lookup results_lookupT
  split
  · exact Or.inl rfl
  · split
    · exact Or.inr (Or.inl rfl)
    · rename_i rec hm
      split
      · exact Or.inr (Or.inr (Or.inr (Or.inl ⟨rec, rfl⟩)))
      · split
        · exact Or.inr (Or.inr (Or.inl rfl))
        · rename_i row hrow
          exact Or.inr (Or.inr (Or.inr (Or.inr ⟨rec, row, rfl⟩)))

/-- Claim C9, counterexample to the literal containment reading: with PIN
"1234" and subject "1234", the `SubjectNotFound` payload does contain the
supplied PIN string (because the user typed it as the subject). -/
theorem C9_counterexample :
    results_lookup "1234" "1234" =
      LookupResult.subjectNotFound "No recorded result for subject '1234' for this student."
    ∧ strContains "No recorded result for subject '1234' for this student." "1234" = true := by decide

/-- Claim C10: keyword matching is bare substring containment with no word
boundary: "recall" contains "call" only inside the longer word, so the
question "recall" receives the contact answer instead of the fallback. -/
theorem C10_substring_no_word_boundary :
    strContains (lowerStr "recall") "call" = true
    ∧ answer_question "recall" = contactAnswer
    ∧ contactAnswer ≠ fallbackAnswer := by decide
